import Mathlib

/-!
Verification of the fixed-point math core of libtoncpp (tonc_math.hpp).

The C++ source is shallowly embedded: machine integers become `Int` with
explicit two-complement wrapping (`toS32`, `toS64`, `toU32`), C shifts become
divisions and multiplications by powers of two, and the signed/unsigned
conversion rules of C++ are applied exactly where the source triggers them.
In particular, `FIX_SCALE` is declared `u32` in the source, so `fxdiv` and
`fx2int` perform unsigned division after converting their signed operands to
`u32`; the embedding keeps that behaviour.

The extern lookup table `sin_lut` is declared but its data is not part of the
sources; the lookup functions are therefore parameterized by the table, and
the theorems about them hold for every table.
-/

/-- Wrap an integer to the unsigned 32-bit range, as the C++ conversion of a
value to `u32` does (reduction modulo 2^32, result in `[0, 2^32)`). -/
def toU32 (z : ℤ) : ℤ := z % 2^32

/-- Wrap an integer to the signed 32-bit range `[-2^31, 2^31)`, the
two-complement behaviour of `int`/`s32` arithmetic and conversions. -/
def toS32 (z : ℤ) : ℤ := (z + 2^31) % 2^32 - 2^31

/-- Wrap an integer to the signed 64-bit range `[-2^63, 2^63)` (`s64`). -/
def toS64 (z : ℤ) : ℤ := (z + 2^63) % 2^64 - 2^63

/-- Source constant `FIX_SHIFT = 8U`: number of fractional bits. -/
def FIX_SHIFT : ℕ := 8

/-- Source constant `FIX_SCALE = 1U << FIX_SHIFT`, of type `u32`; its value is
256.  Because it is unsigned, C++ arithmetic that mixes it with an `int`
operand is performed in `u32`. -/
def FIX_SCALE : ℤ := 256

/-- Source macro `FX_RECIPROCAL(a, fp) = (((1 << (fp)) + (a) - 1) / (a))`:
the fixed-point reciprocal of `a` with `fp` fractional bits, rounded up. -/
def FX_RECIPROCAL (a fp : ℕ) : ℕ := ((1 <<< fp) + a - 1) / a

/-- Source macro `FX_RECIMUL(x, a, fp) = (((x) * ((1 << (fp)) + (a) - 1) / (a)) >> (fp))`.
C multiplication and division associate left to right, so the expression
multiplies `x` by `(1 << fp) + a - 1` first and divides by `a` afterwards;
the parenthesization below reproduces that evaluation order exactly. -/
def FX_RECIMUL (x a fp : ℕ) : ℕ := ((x * ((1 <<< fp) + a - 1)) / a) >>> fp

/-- Source `int2fx(d) = d << FIX_SHIFT`: signed 32-bit shift, i.e. multiply by
256 with 32-bit wrapping. -/
def int2fx (d : ℤ) : ℤ := toS32 (d * 256)

/-- Source `fx2uint(fx) = fx >> FIX_SHIFT`: arithmetic right shift of the
signed `fx` by 8 (floor division by 256), converted to `u32` on return. -/
def fx2uint (fx : ℤ) : ℤ := toU32 (fx / 256)

/-- Source `fx2int(fx) = fx / FIX_SCALE`: since `FIX_SCALE` is `u32`, the
usual arithmetic conversions turn this into an unsigned division, so `fx` is
first converted to `u32`; the unsigned quotient is converted back to `int`. -/
def fx2int (fx : ℤ) : ℤ := toS32 (toU32 fx / FIX_SCALE)

/-- Source `fxmul(fa, fb) = (fa * fb) >> FIX_SHIFT`: signed 32-bit product
(wrapping) followed by an arithmetic right shift by 8. -/
def fxmul (fa fb : ℤ) : ℤ := toS32 (fa * fb) / 256

/-- Source `fxmul64(fa, fb) = (((s64)fa) * fb) >> FIX_SHIFT`: 64-bit product,
arithmetic shift by 8, then conversion of the `s64` result to `FIXED` (s32). -/
def fxmul64 (fa fb : ℤ) : ℤ := toS32 (toS64 (fa * fb) / 256)

/-- Source `fxdiv(fa, fb) = ((fa) * FIX_SCALE) / (fb)`: `FIX_SCALE` is `u32`,
so `fa` is converted to `u32`, multiplied mod 2^32, and divided by the `u32`
conversion of `fb` (unsigned division); the result converts back to `FIXED`. -/
def fxdiv (fa fb : ℤ) : ℤ := toS32 (toU32 (toU32 fa * FIX_SCALE) / toU32 fb)

/-- Source `fxdiv64(fa, fb) = (((s64)fa) << FIX_SHIFT) / (fb)`: 64-bit signed
scaling followed by signed division (truncation toward zero), result converted
to `FIXED` (s32). -/
def fxdiv64 (fa fb : ℤ) : ℤ := toS32 (Int.tdiv (toS64 (fa * 256)) fb)

/-- Source constant `SIN_LUT_SIZE = 514` (512 main entries plus 2 for lerp). -/
def SIN_LUT_SIZE : ℕ := 514

/-- Table index computed by `lu_sin`: `(theta >> 7) & 0x1FF`. -/
def luSinIndex (theta : ℕ) : ℕ := (theta >>> 7) &&& 0x1FF

/-- Table index computed by `lu_cos`: `((theta >> 7) + 128) & 0x1FF`. -/
def luCosIndex (theta : ℕ) : ℕ := ((theta >>> 7) + 128) &&& 0x1FF

/-- Source `lu_sin(theta) = sin_lut[(theta >> 7) & 0x1FF]`.  The extern table
`sin_lut` is not part of the sources, so it is passed explicitly. -/
def lu_sin (sin_lut : ℕ → ℤ) (theta : ℕ) : ℤ := sin_lut (luSinIndex theta)

/-- Source `lu_cos(theta) = sin_lut[((theta >> 7) + 128) & 0x1FF]`. -/
def lu_cos (sin_lut : ℕ → ℤ) (theta : ℕ) : ℤ := sin_lut (luCosIndex theta)

/-- Source `struct POINT { int x, y; }`. -/
structure POINT where
  x : ℤ
  y : ℤ
  deriving DecidableEq

/-- Source `pt_add`: `pd->x = pa->x + pb->x; pd->y = pa->x + pb->y;`.  The
second assignment reads `pa->x`, not `pa->y`, exactly as in the source. -/
def pt_add (pa pb : POINT) : POINT :=
  ⟨toS32 (pa.x + pb.x), toS32 (pa.x + pb.y)⟩

/-- Source `pt_sub`: `pd->x = pa->x - pb->x; pd->y = pa->x - pb->y;`.  The
second assignment reads `pa->x`, not `pa->y`, exactly as in the source. -/
def pt_sub (pa pb : POINT) : POINT :=
  ⟨toS32 (pa.x - pb.x), toS32 (pa.x - pb.y)⟩

/-- Source `pt_add_eq`: `pd->x += pb->y; pd->y += pb->y;`.  The first
assignment reads `pb->y`, not `pb->x`, exactly as in the source. -/
def pt_add_eq (pd pb : POINT) : POINT :=
  ⟨toS32 (pd.x + pb.y), toS32 (pd.y + pb.y)⟩

/-- Source `pt_sub_eq`: `pd->x -= pb->y; pd->y -= pb->y;`.  The first
assignment reads `pb->y`, not `pb->x`, exactly as in the source. -/
def pt_sub_eq (pd pb : POINT) : POINT :=
  ⟨toS32 (pd.x - pb.y), toS32 (pd.y - pb.y)⟩

/-- Source `struct RECT { int left, top; int right, bottom; }`. -/
structure RECT where
  left : ℤ
  top : ℤ
  right : ℤ
  bottom : ℤ
  deriving DecidableEq

/-- Source `rc_width(rc) = rc->right - rc->left` (signed 32-bit). -/
def rc_width (rc : RECT) : ℤ := toS32 (rc.right - rc.left)

/-- Source `rc_height(rc) = rc->bottom - rc->top` (signed 32-bit). -/
def rc_height (rc : RECT) : ℤ := toS32 (rc.bottom - rc.top)

/-- Source `rc_set_pos`: `rc->right += x - rc->left; rc->left = x;
rc->bottom += y - rc->top; rc->top = y;` — the edge updates read the old
`left`/`top` values, as the statement order in the source guarantees. -/
def rc_set_pos (rc : RECT) (x y : ℤ) : RECT :=
  ⟨x, y, toS32 (rc.right + toS32 (x - rc.left)), toS32 (rc.bottom + toS32 (y - rc.top))⟩

/-- Source `struct VECTOR { FIXED x, y, z; }`. -/
structure VECTOR where
  x : ℤ
  y : ℤ
  z : ℤ
  deriving DecidableEq

/-- Source `vec_add`: component-wise signed 32-bit addition into `vd`. -/
def vec_add (va vb : VECTOR) : VECTOR :=
  ⟨toS32 (va.x + vb.x), toS32 (va.y + vb.y), toS32 (va.z + vb.z)⟩

/-- Source `vec_sub`: component-wise signed 32-bit subtraction into `vd`. -/
def vec_sub (va vb : VECTOR) : VECTOR :=
  ⟨toS32 (va.x - vb.x), toS32 (va.y - vb.y), toS32 (va.z - vb.z)⟩

/-- Source `vec_mul`: component-wise `fxmul` into `vd`. -/
def vec_mul (va vb : VECTOR) : VECTOR :=
  ⟨fxmul va.x vb.x, fxmul va.y vb.y, fxmul va.z vb.z⟩

/-- Source `vec_scale`: `fxmul` of every component of `va` with `c`. -/
def vec_scale (va : VECTOR) (c : ℤ) : VECTOR :=
  ⟨fxmul va.x c, fxmul va.y c, fxmul va.z c⟩

/-- Source `vec_add_eq`: `vd->x += vb->x; vd->y += vb->y; vd->z += vb->z;`. -/
def vec_add_eq (vd vb : VECTOR) : VECTOR :=
  ⟨toS32 (vd.x + vb.x), toS32 (vd.y + vb.y), toS32 (vd.z + vb.z)⟩

/-- Source `vec_sub_eq`: `vd->x -= vb->x; vd->y -= vb->y; vd->z -= vb->z;`. -/
def vec_sub_eq (vd vb : VECTOR) : VECTOR :=
  ⟨toS32 (vd.x - vb.x), toS32 (vd.y - vb.y), toS32 (vd.z - vb.z)⟩

/-- Source `vec_mul_eq`: `vd->c = fxmul(vd->c, vb->c)` for each component. -/
def vec_mul_eq (vd vb : VECTOR) : VECTOR :=
  ⟨fxmul vd.x vb.x, fxmul vd.y vb.y, fxmul vd.z vb.z⟩

/-- Source `vec_scale_eq`: `vd->c = fxmul(vd->c, c)` for each component. -/
def vec_scale_eq (vd : VECTOR) (c : ℤ) : VECTOR :=
  ⟨fxmul vd.x c, fxmul vd.y c, fxmul vd.z c⟩

/-- A value already inside the signed 32-bit range is fixed by `toS32`. -/
lemma toS32_of_bounds {z : ℤ} (h1 : -2^31 ≤ z) (h2 : z < 2^31) : toS32 z = z := by
  unfold toS32
  omega

/-- A value already inside the signed 64-bit range is fixed by `toS64`. -/
lemma toS64_of_bounds {z : ℤ} (h1 : -2^63 ≤ z) (h2 : z < 2^63) : toS64 z = z := by
  unfold toS64
  omega

/-- The mask in `luSinIndex` is reduction mod 512 of `theta` divided by 128. -/
lemma luSinIndex_eq_mod (theta : ℕ) : luSinIndex theta = theta / 128 % 512 := by
  unfold luSinIndex
  rw [Nat.shiftRight_eq_div_pow]
  have h := Nat.and_pow_two_sub_one_eq_mod (theta / 2^7) 9
  norm_num at h ⊢
  exact h

/-- The mask in `luCosIndex` is reduction mod 512 after the quarter-turn
offset of 128 entries. -/
lemma luCosIndex_eq_mod (theta : ℕ) : luCosIndex theta = (theta / 128 + 128) % 512 := by
  unfold luCosIndex
  rw [Nat.shiftRight_eq_div_pow]
  have h := Nat.and_pow_two_sub_one_eq_mod (theta / 2^7 + 128) 9
  norm_num at h ⊢
  exact h

/-- C1: evaluation of the point operations at a concrete input.  The source
assignments read the wrong fields (`pa->x` for the y component of `pt_add` and
`pt_sub`, `pb->y` for the x component of `pt_add_eq` and `pt_sub_eq`), so on
`pa = (1, 2)`, `pb = (10, 20)` the results differ from the component-wise
values `(11, 22)`, `(-9, -18)`, `(11, 22)` and `(-9, -18)` that the claim
(and the doc comments of the source) demand. -/
theorem pt_ops_wrong_component_eval :
    pt_add ⟨1, 2⟩ ⟨10, 20⟩ = ⟨11, 21⟩ ∧ pt_add ⟨1, 2⟩ ⟨10, 20⟩ ≠ ⟨11, 22⟩ ∧
    pt_sub ⟨1, 2⟩ ⟨10, 20⟩ = ⟨-9, -19⟩ ∧ pt_sub ⟨1, 2⟩ ⟨10, 20⟩ ≠ ⟨-9, -18⟩ ∧
    pt_add_eq ⟨1, 2⟩ ⟨10, 20⟩ = ⟨21, 22⟩ ∧ pt_add_eq ⟨1, 2⟩ ⟨10, 20⟩ ≠ ⟨11, 22⟩ ∧
    pt_sub_eq ⟨1, 2⟩ ⟨10, 20⟩ = ⟨-19, -18⟩ ∧ pt_sub_eq ⟨1, 2⟩ ⟨10, 20⟩ ≠ ⟨-9, -18⟩ := by
  decide

/-- C2: evaluation of `FX_RECIMUL` at `x = 53`, `a = 6`, `fp = 8`.  The
computed reciprocal is `m = FX_RECIPROCAL 6 8 = 43`, the documented safety
bound `x * (m * a - 2^fp) < 2^fp` holds (`53 * 2 = 106 < 256`), yet the macro
returns 9 while the exact quotient is `53 / 6 = 8`: the macro multiplies by
`(1 << fp) + a - 1` before dividing by `a`, which breaks the documented rule
that is stated for multiplication by the rounded reciprocal `m`. -/
theorem fx_recimul_breaks_doc_bound_eval :
    FX_RECIPROCAL 6 8 = 43 ∧ 53 * (43 * 6 - 2^8) < 2^8 ∧
    FX_RECIMUL 53 6 8 = 9 ∧ 53 / 6 = 8 := by
  decide

/-- C3 counterexample: at `fa = fb = 2^20` the narrow product overflows and
`fxmul64` returns 0 because the 64-bit value `2^40 >> 8 = 2^32` wraps when
converted to the 32-bit `FIXED` return type; the exact scaled product is
`2^32`, so the result is not within one unit of it. -/
theorem fxmul64_return_wrap_counterexample :
    fxmul64 (2^20) (2^20) = 0 ∧ (2^20 * 2^20 : ℤ) / 256 - fxmul64 (2^20) (2^20) > 1 := by
  decide

/-- C3 (amended): for 32-bit operands, `fxmul64` equals `fxmul` whenever the
product `fa * fb` is representable in 32 signed bits, and whenever the narrow
product would overflow but the shifted product `(fa * fb) / 256` is still
representable in 32 signed bits, `fxmul64` is within one unit in the last
place of the exact scaled product (it is its floor). -/
theorem fxmul64_agrees_and_accurate (fa fb : ℤ)
    (hfa1 : -2^31 ≤ fa) (hfa2 : fa < 2^31) (hfb1 : -2^31 ≤ fb) (hfb2 : fb < 2^31) :
    ((-2^31 ≤ fa * fb ∧ fa * fb < 2^31) → fxmul64 fa fb = fxmul fa fb) ∧
    ((¬(-2^31 ≤ fa * fb ∧ fa * fb < 2^31)) ∧
        -2^31 ≤ fa * fb / 256 ∧ fa * fb / 256 < 2^31 →
      0 ≤ fa * fb - 256 * fxmul64 fa fb ∧ fa * fb - 256 * fxmul64 fa fb < 256) := by
  have habs : -(2^62) ≤ fa * fb ∧ fa * fb ≤ 2^62 := by
    have h1 : |fa| ≤ 2^31 := abs_le.mpr ⟨hfa1, by omega⟩
    have h2 : |fb| ≤ 2^31 := abs_le.mpr ⟨hfb1, by omega⟩
    have h3 : |fa * fb| ≤ 2^62 := by
      rw [abs_mul]
      calc |fa| * |fb| ≤ 2^31 * 2^31 :=
            mul_le_mul h1 h2 (abs_nonneg fb) (by positivity)
        _ = 2^62 := by norm_num
    exact abs_le.mp h3
  have h64 : toS64 (fa * fb) = fa * fb := toS64_of_bounds (by omega) (by omega)
  unfold fxmul64 fxmul
  rw [h64]
  constructor
  · rintro ⟨hp1, hp2⟩
    rw [toS32_of_bounds hp1 hp2, toS32_of_bounds (by omega) (by omega)]
  · rintro ⟨-, hq1, hq2⟩
    rw [toS32_of_bounds hq1 hq2]
    omega

/-- C3 witness: the agreement part at `fa = 3`, `fb = 7` and the accuracy part
at `fa = fb = 2^16`, where the narrow product `2^32` overflows while the
shifted product `2^24` is representable. -/
theorem fxmul64_agrees_and_accurate_witness :
    fxmul64 3 7 = fxmul 3 7 ∧
    (0 ≤ (2^16 * 2^16 : ℤ) - 256 * fxmul64 (2^16) (2^16) ∧
      (2^16 * 2^16 : ℤ) - 256 * fxmul64 (2^16) (2^16) < 256) :=
  ⟨(fxmul64_agrees_and_accurate 3 7 (by decide) (by decide) (by decide) (by decide)).1
      (by decide),
   (fxmul64_agrees_and_accurate (2^16) (2^16) (by decide) (by decide) (by decide)
      (by decide)).2 ⟨by decide, by decide, by decide⟩⟩

/-- C4: for every table and every 32-bit angle, `lu_sin` is invariant under
adding one full turn (65536 angle units, with unsigned 32-bit wrap) and
`lu_cos` equals `lu_sin` shifted by a quarter turn (16384 angle units); both
identities are exact, independent of the table contents. -/
theorem lu_sin_periodic_lu_cos_quarter_shift (sin_lut : ℕ → ℤ) (theta : ℕ)
    (h : theta < 2^32) :
    lu_sin sin_lut ((theta + 65536) % 2^32) = lu_sin sin_lut theta ∧
    lu_cos sin_lut theta = lu_sin sin_lut ((theta + 16384) % 2^32) := by
  unfold lu_sin lu_cos
  have hsin : luSinIndex ((theta + 65536) % 2^32) = luSinIndex theta := by
    rw [luSinIndex_eq_mod, luSinIndex_eq_mod]
    omega
  have hcos : luCosIndex theta = luSinIndex ((theta + 16384) % 2^32) := by
    rw [luCosIndex_eq_mod, luSinIndex_eq_mod]
    omega
  exact ⟨congrArg sin_lut hsin, congrArg sin_lut hcos⟩

/-- C4 witness: the two identities at the concrete table `fun i => i` and
angle 300. -/
theorem lu_sin_periodic_lu_cos_quarter_shift_witness :
    lu_sin (fun i => (i : ℤ)) ((300 + 65536) % 2^32) = lu_sin (fun i => (i : ℤ)) 300 ∧
    lu_cos (fun i => (i : ℤ)) 300 = lu_sin (fun i => (i : ℤ)) ((300 + 16384) % 2^32) :=
  lu_sin_periodic_lu_cos_quarter_shift (fun i => (i : ℤ)) 300 (by norm_num)

/-- C5: evaluation at `fa = -256`, `fb = 256` (both with `fa * 256`
representable in 32 signed bits).  Because `FIX_SCALE` is `u32`, `fxdiv`
divides the unsigned reinterpretations and returns 16776960, while `fxdiv64`
performs the signed division and returns -256; the two disagree inside the
claimed non-overflow envelope. -/
theorem fxdiv_unsigned_division_eval :
    fxdiv (-256) 256 = 16776960 ∧ fxdiv64 (-256) 256 = -256 ∧
    fxdiv (-256) 256 ≠ fxdiv64 (-256) 256 := by
  decide

/-- C6: for every 32-bit `fx`, `fx2uint` is the arithmetic right shift by 8
(floor division by 256) converted to `u32`; it agrees with `fx2int` on every
non-negative `fx` and differs from it on every negative `fx`. -/
theorem fx2uint_shift_and_fx2int_agreement (fx : ℤ)
    (h1 : -2^31 ≤ fx) (h2 : fx < 2^31) :
    fx2uint fx = toU32 (Int.fdiv fx 256) ∧
    (0 ≤ fx → fx2uint fx = fx2int fx) ∧
    (fx < 0 → fx2uint fx ≠ fx2int fx) := by
  refine ⟨?_, ?_, ?_⟩
  · unfold fx2uint
    rw [Int.fdiv_eq_ediv fx (by norm_num)]
  · intro h0
    unfold fx2uint fx2int toU32 toS32 FIX_SCALE
    omega
  · intro hneg
    unfold fx2uint fx2int toU32 toS32 FIX_SCALE
    omega

/-- C6 witness: agreement at `fx = 512` and divergence at `fx = -256`. -/
theorem fx2uint_shift_and_fx2int_agreement_witness :
    fx2uint 512 = fx2int 512 ∧ fx2uint (-256) ≠ fx2int (-256) :=
  ⟨(fx2uint_shift_and_fx2int_agreement 512 (by decide) (by decide)).2.1 (by decide),
   (fx2uint_shift_and_fx2int_agreement (-256) (by decide) (by decide)).2.2 (by decide)⟩

/-- C7: evaluation of the round trip at `d = -1` (and, for contrast, at
`d = 5`).  `int2fx (-1) = -256`, but `fx2int` divides the `u32`
reinterpretation `2^32 - 256` by the unsigned `FIX_SCALE`, yielding 16777215
instead of -1; the round trip only survives for non-negative inputs. -/
theorem fx2int_int2fx_roundtrip_eval :
    fx2int (int2fx (-1)) = 16777215 ∧ fx2int (int2fx (-1)) ≠ -1 ∧
    fx2int (int2fx 5) = 5 := by
  decide

/-- C8: for every angle and every table of the declared size 514, both lookup
indices are below 512 (hence inside the table) and the accesses succeed:
angles only wrap, they never index out of bounds. -/
theorem lu_indices_in_bounds (theta : ℕ) (lut : List ℤ)
    (hl : lut.length = SIN_LUT_SIZE) :
    luSinIndex theta < 512 ∧ luCosIndex theta < 512 ∧
    (lut[luSinIndex theta]?).isSome ∧ (lut[luCosIndex theta]?).isSome := by
  have hs : luSinIndex theta ≤ 511 := by
    unfold luSinIndex
    exact Nat.and_le_right
  have hc : luCosIndex theta ≤ 511 := by
    unfold luCosIndex
    exact Nat.and_le_right
  have hlen : lut.length = 514 := by
    rw [hl]
    rfl
  refine ⟨by omega, by omega, ?_, ?_⟩
  · rw [List.getElem?_eq_getElem (by omega)]
    rfl
  · rw [List.getElem?_eq_getElem (by omega)]
    rfl

/-- C8 witness: the bounds and successful lookups at the out-of-domain angle
`2^32 - 1` against a concrete table of length 514. -/
theorem lu_indices_in_bounds_witness :
    luSinIndex 4294967295 < 512 ∧ luCosIndex 4294967295 < 512 ∧
    ((List.replicate 514 (0 : ℤ))[luSinIndex 4294967295]?).isSome ∧
    ((List.replicate 514 (0 : ℤ))[luCosIndex 4294967295]?).isSome :=
  lu_indices_in_bounds 4294967295 (List.replicate 514 0)
    (by rw [List.length_replicate]
        rfl)

/-- C9: `rc_set_pos` sets `left` to `x` and `top` to `y` and leaves the
computed width and height unchanged, for every rect and all integers. -/
theorem rc_set_pos_moves_and_preserves_size (rc : RECT) (x y : ℤ) :
    (rc_set_pos rc x y).left = x ∧ (rc_set_pos rc x y).top = y ∧
    rc_width (rc_set_pos rc x y) = rc_width rc ∧
    rc_height (rc_set_pos rc x y) = rc_height rc := by
  refine ⟨rfl, rfl, ?_, ?_⟩
  · simp only [rc_set_pos, rc_width, toS32]
    omega
  · simp only [rc_set_pos, rc_height, toS32]
    omega

/-- C10: each in-place vector operation produces exactly the state of the
corresponding pure operation applied to the prior value of the destination. -/
theorem vec_inplace_matches_pure (vd vb : VECTOR) (c : ℤ) :
    vec_add_eq vd vb = vec_add vd vb ∧ vec_sub_eq vd vb = vec_sub vd vb ∧
    vec_mul_eq vd vb = vec_mul vd vb ∧ vec_scale_eq vd c = vec_scale vd c :=
  ⟨rfl, rfl, rfl, rfl⟩
